import Mathlib

/-!
Verification development for the StellarSwipe subscription backend.

Money values (USDC amounts) are represented as integers counting units of
10⁻⁷ USDC, matching the system-wide fixed 7-fractional-digit decimal scale
(`big.js` values serialized with `toFixed(7)`).  Timestamps are integers
counting milliseconds since the Unix epoch, matching JavaScript `Date`
arithmetic (`getTime()` / `new Date(ms)`).
-/

namespace StellarSwipe

/-- Tier classification level, from `subscription-tier.entity.ts`
(used as `TierLevel.FREE` etc. throughout the service code). -/
inductive TierLevel
  | FREE
  | BASIC
  | PREMIUM
  | VIP
deriving DecidableEq, Repr

/-- Subscription lifecycle status, from `user-subscription.entity.ts`
(used as `SubscriptionStatus.ACTIVE` etc. throughout the service code). -/
inductive SubscriptionStatus
  | ACTIVE
  | CANCELLED
  | SUSPENDED
  | EXPIRED
deriving DecidableEq, Repr

/-- Payment status of the latest payment attempt on a subscription. -/
inductive PaymentStatus
  | COMPLETED
  | FAILED
deriving DecidableEq, Repr

/-- A subscription tier row (`SubscriptionTier` entity): id, owner,
level/pricing, acceptance flags and the aggregate counters maintained by
`SubscriptionsService`. -/
structure SubscriptionTier where
  id : Nat
  providerId : Nat
  name : String
  description : Option String
  level : TierLevel
  price : Int
  signalLimit : Option Nat
  benefits : List String
  active : Bool
  acceptingNewSubscribers : Bool
  subscriberCount : Nat
  totalRevenue : Int
deriving DecidableEq, Repr

/-- A user subscription row (`UserSubscription` entity), with the billing
window, wallet snapshot and failure bookkeeping fields written by
`SubscriptionsService`. -/
structure UserSubscription where
  id : Nat
  userId : Nat
  tierId : Nat
  providerId : Nat
  status : SubscriptionStatus
  paymentStatus : PaymentStatus
  amountPaid : Int
  platformCommission : Int
  providerEarnings : Int
  stellarTxHash : Option String
  periodStart : Int
  periodEnd : Int
  renewsAt : Int
  subscriberWallet : String
  providerWallet : String
  autoRenew : Bool
  renewalCount : Nat
  paymentFailureCount : Nat
  lastFailureReason : Option String
  cancellationReason : Option String
  cancelledAt : Option Int
deriving DecidableEq, Repr

/-- Error taxonomy of the NestJS exceptions thrown by the service layer
(`NotFoundException`, `BadRequestException`, `ConflictException`,
`ForbiddenException`), each carrying its message. -/
inductive SvcError
  | notFound (msg : String)
  | badRequest (msg : String)
  | conflict (msg : String)
  | forbidden (msg : String)
deriving DecidableEq, Repr

/-- Maximum consecutive payment failures before access is suspended
(`MAX_PAYMENT_FAILURES` in `subscriptions.service.ts`). -/
def MAX_PAYMENT_FAILURES : Nat := 3

/-- Billing cycle length in days (`BILLING_CYCLE_DAYS`). -/
def BILLING_CYCLE_DAYS : Int := 30

/-- Notify subscribers N days before renewal (`RENEWAL_NOTIFICATION_DAYS`). -/
def RENEWAL_NOTIFICATION_DAYS : Int := 3

/-- Milliseconds in a day (`86_400_000` in the source). -/
def MS_PER_DAY : Int := 86400000

-- ───────────────────────────────────────────────────────────────
--  payment-processor.service.ts : calculateRevenueSplit
-- ───────────────────────────────────────────────────────────────

/-- Division of an integer by 10 with round-half-up in the `big.js` sense
(`Big.RM = 1`: round to nearest, ties away from zero).  `toFixed(7)` applied
to a value held in 10⁻⁸ units performs exactly this division. -/
def roundDiv10 (x : Int) : Int :=
  if 0 ≤ x then (x + 5) / 10 else -((-x + 5) / 10)

/-- Shallow embedding of `PaymentProcessorService.calculateRevenueSplit`.
`gross` is the gross amount in 10⁻⁷ USDC units.  The source computes
`commission = Big(gross).times(0.20).toFixed(7)`: the exact product
`gross × 0.20` lives in 10⁻⁸ units as `gross * 2`, and `toFixed(7)` rounds
it back to the 7-digit scale; `providerEarnings = gross − commission` is
exact at 7 digits, so its `toFixed(7)` is the identity. -/
def calculateRevenueSplit (gross : Int) : Int × Int :=
  let commission := roundDiv10 (gross * 2)
  (commission, gross - commission)

-- ───────────────────────────────────────────────────────────────
--  payment-processor.service.ts : verifySubscriptionPayment
-- ───────────────────────────────────────────────────────────────

/-- One Horizon operation record of the fetched transaction, with the fields
`verifySubscriptionPayment` inspects (`op.type`, `asset_type`, `asset_code`,
`asset_issuer`, `from`, `to`, `amount`).  `fromAddr`/`toAddr` stand for the
source fields `from`/`to`. -/
structure LedgerOp where
  type : String
  asset_type : String
  asset_code : String
  asset_issuer : Option String
  fromAddr : String
  toAddr : String
  amount : Int
deriving DecidableEq, Repr

/-- Structured form of the verifier error strings produced by the source:
`txNotFound` = "Transaction not found on Stellar network";
`noMatchingOp` = "No matching USDC payment operation found in transaction";
`networkError msg` = "Stellar network error: ..." (the catch-all branch);
`insufficientPayment expected paid` = "Insufficient payment: expected E USDC,
got P USDC", carrying both amounts. -/
inductive VerifyError
  | txNotFound
  | noMatchingOp
  | networkError (msg : String)
  | insufficientPayment (expected paid : Int)
deriving DecidableEq, Repr

/-- The error string of the source for each structured error. -/
def VerifyError.message : VerifyError → String
  | .txNotFound => "Transaction not found on Stellar network"
  | .noMatchingOp => "No matching USDC payment operation found in transaction"
  | .networkError msg => "Stellar network error: " ++ msg
  | .insufficientPayment expected paid =>
      "Insufficient payment: expected " ++ toString expected ++ " USDC, got " ++
        toString paid ++ " USDC"

/-- Result of verifying a Stellar payment transaction
(`PaymentVerificationResult` in `payment-processor.service.ts`, with the
error string represented structurally as `VerifyError`). -/
structure PaymentVerificationResult where
  valid : Bool
  amount : Int
  assetCode : String
  assetIssuer : Option String
  sender : String
  receiver : String
  error : Option VerifyError
deriving DecidableEq, Repr

/-- Outcome of the two Horizon network calls made by the verifier: either the
transaction lookup plus its operation records, or a raised network error that
the catch-all turns into a result. `ok false _` is the `!tx` branch. -/
inductive HorizonFetch
  | ok (txFound : Bool) (ops : List LedgerOp)
  | failure (msg : String)
deriving DecidableEq, Repr

/-- Case normalization used for wallet comparison (`toLowerCase()`),
character by character over the underlying character list. -/
def strLower (s : String) : String := String.mk (s.data.map Char.toLower)

/-- Amount tolerance `Big('0.0000001')` in 10⁻⁷ USDC units. -/
def TOLERANCE : Int := 1

/-- The per-operation filter of the verifier loop: `op.type === 'payment'`,
USDC asset pinned to the configured issuer, and case-insensitive equality of
`from`/`to` with the expected sender/receiver wallets. -/
def matchesPayment (usdcIssuer sender receiver : String) (op : LedgerOp) : Bool :=
  op.type == "payment" &&
  op.asset_type == "credit_alphanum4" &&
  op.asset_code == "USDC" &&
  op.asset_issuer == some usdcIssuer &&
  strLower op.fromAddr == strLower sender &&
  strLower op.toAddr == strLower receiver

/-- An all-empty invalid result, as built by the not-found / no-match /
network-error branches of the source. -/
def emptyInvalid (e : VerifyError) : PaymentVerificationResult :=
  { valid := false, amount := 0, assetCode := "", assetIssuer := none,
    sender := "", receiver := "", error := some e }

/-- The valid result built by the accepting branch of the verifier loop. -/
def validResult (op : LedgerOp) : PaymentVerificationResult :=
  { valid := true, amount := op.amount, assetCode := "USDC",
    assetIssuer := op.asset_issuer, sender := op.fromAddr,
    receiver := op.toAddr, error := none }

/-- The insufficient-payment result built by the rejecting branch of the
verifier loop, carrying both the expected and the observed amount. -/
def insufficientResult (expected : Int) (op : LedgerOp) :
    PaymentVerificationResult :=
  { valid := false, amount := op.amount, assetCode := "USDC",
    assetIssuer := op.asset_issuer, sender := op.fromAddr,
    receiver := op.toAddr,
    error := some (.insufficientPayment expected op.amount) }

/-- The `for (const op of ops.records)` loop: the first operation passing
`matchesPayment` decides the outcome — a valid result when
`paidAmount ≥ expectedAmount − tolerance`, otherwise an immediate
insufficient-payment result (the loop `return`s without scanning further). -/
def scanOps (usdcIssuer : String) (expected : Int) (sender receiver : String) :
    List LedgerOp → PaymentVerificationResult
  | [] => emptyInvalid .noMatchingOp
  | op :: rest =>
      if matchesPayment usdcIssuer sender receiver op then
        if expected - TOLERANCE ≤ op.amount then validResult op
        else insufficientResult expected op
      else scanOps usdcIssuer expected sender receiver rest

/-- Shallow embedding of `PaymentProcessorService.verifySubscriptionPayment`.
The Horizon interaction is abstracted into the `fetch` argument; the
configured stablecoin issuer is `usdcIssuer`. -/
def verifySubscriptionPayment (usdcIssuer : String) (fetch : HorizonFetch)
    (expectedAmountUsdc : Int) (senderWallet receiverWallet : String) :
    PaymentVerificationResult :=
  match fetch with
  | .failure msg => emptyInvalid (.networkError msg)
  | .ok false _ => emptyInvalid .txNotFound
  | .ok true ops => scanOps usdcIssuer expectedAmountUsdc senderWallet receiverWallet ops

-- ───────────────────────────────────────────────────────────────
--  subscriptions.service.ts : data model of the persisted state
-- ───────────────────────────────────────────────────────────────

/-- The slice of a `User` row the subscription service reads
(`providerUser?.walletAddress`). -/
structure UserRec where
  id : Nat
  walletAddress : Option String
deriving DecidableEq, Repr

/-- The persisted state the subscription service operates on: the tier table,
the subscription table and the user table. -/
structure LedgerState where
  tiers : List SubscriptionTier
  subs : List UserSubscription
  users : List UserRec
deriving DecidableEq, Repr

-- ───────────────────────────────────────────────────────────────
--  subscriptions.service.ts : tier management
-- ───────────────────────────────────────────────────────────────

/-- `CreateTierDto` (validated payload). -/
structure CreateTierDto where
  name : String
  description : Option String
  level : TierLevel
  price : Int
  signalLimit : Option Nat
  benefits : List String
deriving DecidableEq, Repr

/-- `UpdateTierDto` (validated payload); `signalLimit` distinguishes an
absent field from an explicit `null`. -/
structure UpdateTierDto where
  name : Option String
  description : Option String
  benefits : Option (List String)
  price : Option Int
  signalLimit : Option (Option Nat)
  active : Option Bool
  acceptingNewSubscribers : Option Bool
deriving DecidableEq, Repr

/-- Shallow embedding of `SubscriptionsService.createTier`: rejects a second
active FREE tier per provider (Conflict), a FREE tier with non-zero price and
a paid tier with price ≤ 0 (BadRequest); otherwise inserts a tier with
`active = true`, `acceptingNewSubscribers = true` and zeroed counters (the
entity column defaults). -/
def createTier (providerId : Nat) (dto : CreateTierDto) (newId : Nat)
    (tiers : List SubscriptionTier) :
    Except SvcError (SubscriptionTier × List SubscriptionTier) :=
  if dto.level = TierLevel.FREE ∧
      tiers.any (fun t => decide (t.providerId = providerId ∧
        t.level = TierLevel.FREE ∧ t.active = true)) then
    .error (.conflict "Provider already has an active FREE tier")
  else if dto.level = TierLevel.FREE ∧ dto.price ≠ 0 then
    .error (.badRequest "FREE tier must have price 0")
  else if dto.level ≠ TierLevel.FREE ∧ dto.price ≤ 0 then
    .error (.badRequest "Paid tiers must have price > 0")
  else
    let tier : SubscriptionTier :=
      { id := newId, providerId := providerId, name := dto.name,
        description := dto.description, level := dto.level, price := dto.price,
        signalLimit := dto.signalLimit, benefits := dto.benefits,
        active := true, acceptingNewSubscribers := true,
        subscriberCount := 0, totalRevenue := 0 }
    .ok (tier, tier :: tiers)

/-- The `Object.assign(tier, { ...(dto.name && ...) ... })` patch of
`updateTier`.  A JS spread guarded by `dto.name &&` skips an absent or empty
name; the guards on the other fields are `!== undefined` (arrays are always
truthy, so a present `benefits` is applied even when empty). -/
def applyTierPatch (dto : UpdateTierDto) (t : SubscriptionTier) : SubscriptionTier :=
  { t with
    name := match dto.name with
      | some s => if s = "" then t.name else s
      | none => t.name
    description := match dto.description with
      | some s => some s
      | none => t.description
    benefits := dto.benefits.getD t.benefits
    price := dto.price.getD t.price
    signalLimit := match dto.signalLimit with
      | some v => v
      | none => t.signalLimit
    active := dto.active.getD t.active
    acceptingNewSubscribers :=
      dto.acceptingNewSubscribers.getD t.acceptingNewSubscribers }

/-- Shallow embedding of `SubscriptionsService.updateTier`: NotFound on a
missing tier, Forbidden on an ownership mismatch, BadRequest on a price
change while `subscriberCount > 0`; otherwise saves the patched tier. -/
def updateTier (tierId providerId : Nat) (dto : UpdateTierDto)
    (tiers : List SubscriptionTier) : Except SvcError (List SubscriptionTier) :=
  match tiers.find? (fun t => decide (t.id = tierId)) with
  | none => .error (.notFound "Subscription tier not found")
  | some tier =>
      if tier.providerId ≠ providerId then
        .error (.forbidden "You do not own this tier")
      else if (match dto.price with
          | some p => decide (p ≠ tier.price) && decide (tier.subscriberCount > 0)
          | none => false) then
        .error (.badRequest "Cannot change price while there are active subscribers")
      else
        .ok (tiers.map fun t => if t.id = tierId then applyTierPatch dto t else t)

/-- The cascading update of `cancelTier` on one subscription row. -/
def cancelTierRow (now : Int) (tierId : Nat) (s : UserSubscription) :
    UserSubscription :=
  if s.tierId = tierId ∧ s.status = SubscriptionStatus.ACTIVE then
    { s with
      status := SubscriptionStatus.CANCELLED
      cancellationReason := some "Provider cancelled the subscription tier"
      cancelledAt := some now
      autoRenew := false }
  else s

/-- Shallow embedding of `SubscriptionsService.cancelTier`: ownership-checked;
inside one `dataSource.transaction` it cancels every ACTIVE subscription of
the tier (reason, `cancelledAt = now`, `autoRenew = false`) and deactivates
the tier (`active = false`, `acceptingNewSubscribers = false`,
`subscriberCount = 0`).  Both updates appear in the single returned state,
mirroring the atomic transaction. -/
def cancelTier (tierId providerId : Nat) (now : Int) (st : LedgerState) :
    Except SvcError LedgerState :=
  match st.tiers.find? (fun t => decide (t.id = tierId)) with
  | none => .error (.notFound "Subscription tier not found")
  | some tier =>
      if tier.providerId ≠ providerId then
        .error (.forbidden "You do not own this tier")
      else
        .ok { st with
          subs := st.subs.map (cancelTierRow now tierId)
          tiers := st.tiers.map fun t =>
            if t.id = tierId then
              { t with
                active := false
                acceptingNewSubscribers := false
                subscriberCount := 0 }
            else t }

-- ───────────────────────────────────────────────────────────────
--  subscriptions.service.ts : subscription flow
-- ───────────────────────────────────────────────────────────────

/-- `SubscribeDto` (validated payload). -/
structure SubscribeDto where
  tierId : Nat
  subscriberWallet : String
  stellarTxHash : String
  autoRenew : Option Bool
deriving DecidableEq, Repr

/-- `CancelSubscriptionDto`; `if (dto.immediate)` reads an absent flag as
`false`. -/
structure CancelSubscriptionDto where
  reason : Option String
  immediate : Bool
deriving DecidableEq, Repr

/-- `RenewSubscriptionDto`. -/
structure RenewSubscriptionDto where
  stellarTxHash : String
deriving DecidableEq, Repr

/-- The provider wallet lookup `providerUser?.walletAddress` against the user
table. -/
def providerWalletOf (st : LedgerState) (providerId : Nat) : Option String :=
  (st.users.find? (fun u => decide (u.id = providerId))).bind UserRec.walletAddress

/-- The duplicate-subscription guard of `subscribe`: an existing row with the
same `userId`, `tierId` and status ACTIVE. -/
def hasActiveSubscription (st : LedgerState) (userId tierId : Nat) : Bool :=
  st.subs.any fun s => decide (s.userId = userId ∧ s.tierId = tierId ∧
    s.status = SubscriptionStatus.ACTIVE)

/-- The payment section of `subscribe`: skipped for FREE tiers; otherwise
the provider wallet must exist and the cited Stellar payment must verify.
Returns the error to throw, if any. -/
def paymentGate (st : LedgerState) (tier : SubscriptionTier)
    (dto : SubscribeDto) (usdcIssuer : String) (fetch : HorizonFetch) :
    Option SvcError :=
  if tier.level ≠ TierLevel.FREE then
    match providerWalletOf st tier.providerId with
    | none => some (SvcError.badRequest "Provider wallet not found")
    | some providerWallet =>
        let verification := verifySubscriptionPayment usdcIssuer fetch
          tier.price dto.subscriberWallet providerWallet
        if verification.valid then none
        else some (.badRequest "Payment verification failed")
  else none

/-- Shallow embedding of `SubscriptionsService.subscribe`.  Guards: tier
found (NotFound), tier active and accepting (BadRequest), no duplicate
ACTIVE subscription (Conflict); for non-FREE tiers the provider wallet must
exist (BadRequest) and the Stellar payment must verify (BadRequest).  On
success one transaction inserts the subscription row
(`periodStart = now`, `periodEnd = now + 30d`, `renewsAt = periodEnd − 3d`)
and updates the tier: `subscriber_count = subscriber_count + 1` is a
storage-level relative add, while `totalRevenue` is set to the absolute
value `tier.totalRevenue + tier.price` computed from the tier row read at
the start of the call. -/
def subscribe (userId : Nat) (dto : SubscribeDto) (usdcIssuer : String)
    (fetch : HorizonFetch) (now : Int) (newId : Nat) (st : LedgerState) :
    Except SvcError (UserSubscription × LedgerState) :=
  match st.tiers.find? (fun t => decide (t.id = dto.tierId)) with
  | none => .error (.notFound "Subscription tier not found")
  | some tier =>
      if tier.active = false ∨ tier.acceptingNewSubscribers = false then
        .error (.badRequest
          "This subscription tier is not currently accepting new subscribers")
      else if hasActiveSubscription st userId tier.id then
        .error (.conflict "You already have an active subscription to this tier")
      else
        match paymentGate st tier dto usdcIssuer fetch with
        | some e => .error e
        | none =>
            let split := calculateRevenueSplit tier.price
            let periodEnd := now + BILLING_CYCLE_DAYS * MS_PER_DAY
            let sub : UserSubscription :=
              { id := newId
                userId := userId
                tierId := tier.id
                providerId := tier.providerId
                status := SubscriptionStatus.ACTIVE
                paymentStatus := PaymentStatus.COMPLETED
                amountPaid := tier.price
                platformCommission := split.1
                providerEarnings := split.2
                stellarTxHash :=
                  if tier.level = TierLevel.FREE then none else some dto.stellarTxHash
                periodStart := now
                periodEnd := periodEnd
                renewsAt := periodEnd - RENEWAL_NOTIFICATION_DAYS * MS_PER_DAY
                subscriberWallet := dto.subscriberWallet
                providerWallet := (providerWalletOf st tier.providerId).getD ""
                autoRenew := dto.autoRenew.getD true
                renewalCount := 0
                paymentFailureCount := 0
                lastFailureReason := none
                cancellationReason := none
                cancelledAt := none }
            .ok (sub, { st with
              subs := sub :: st.subs
              tiers := st.tiers.map fun t =>
                if t.id = tier.id then
                  { t with
                    subscriberCount := t.subscriberCount + 1
                    totalRevenue := tier.totalRevenue + tier.price }
                else t })

/-- Shallow embedding of `SubscriptionsService.cancelSubscription`: ownership
check (Forbidden), terminal-status guard (BadRequest); always sets
`autoRenew = false`, `cancellationReason`, `cancelledAt = now`; when
`immediate` it also sets status CANCELLED and applies the tier update
`subscriber_count = GREATEST(subscriber_count − 1, 0)` (the `Nat`
subtraction floors at 0); otherwise the status and the tier row are left
untouched. -/
def cancelSubscription (subscriptionId userId : Nat)
    (dto : CancelSubscriptionDto) (now : Int) (st : LedgerState) :
    Except SvcError (UserSubscription × LedgerState) :=
  match st.subs.find? (fun s => decide (s.id = subscriptionId)) with
  | none => .error (.notFound "Subscription not found")
  | some sub =>
      if sub.userId ≠ userId then
        .error (.forbidden "You do not own this subscription")
      else if sub.status = SubscriptionStatus.CANCELLED ∨
          sub.status = SubscriptionStatus.EXPIRED then
        .error (.badRequest "Subscription is already cancelled or expired")
      else
        let base := { sub with
          autoRenew := false
          cancellationReason := dto.reason
          cancelledAt := some now }
        let sub' := if dto.immediate then
            { base with status := SubscriptionStatus.CANCELLED }
          else base
        let tiers' := if dto.immediate then
            st.tiers.map fun t =>
              if t.id = sub.tierId then
                { t with subscriberCount := t.subscriberCount - 1 }
              else t
          else st.tiers
        .ok (sub', { st with
          subs := st.subs.map fun s => if s.id = subscriptionId then sub' else s
          tiers := tiers' })

/-- Outcome of `renewSubscription`.  `rejected` is a guard failure (nothing
persisted); `paymentFailed` carries the persisted failure row, whether
`AccessControlService.suspendSubscription` was invoked, and the error thrown
to the caller; `renewed` carries the saved row and the tier with its updated
`totalRevenue`. -/
inductive RenewResult
  | rejected (e : SvcError)
  | paymentFailed (sub : UserSubscription) (suspendCalled : Bool) (e : SvcError)
  | renewed (sub : UserSubscription) (tier : SubscriptionTier)
deriving DecidableEq, Repr

/-- Shallow embedding of `SubscriptionsService.renewSubscription` for a
subscription row and its tier.  The source reads no clock on this path: the
new billing window is anchored at the stored `periodEnd`.  On payment
failure the in-memory row gets `paymentFailureCount + 1`, the verification
error as `lastFailureReason` and `paymentStatus = FAILED`; when the count
reaches `MAX_PAYMENT_FAILURES` the status is set to SUSPENDED and
`AccessControlService.suspendSubscription` is invoked (its
`lastFailureReason` write is then overwritten by the final `save(sub)`,
so the persisted row is the one carried by `paymentFailed`); the failure is
surfaced as a BadRequest.  On success the row is re-anchored
(`periodStart = old periodEnd`, `periodEnd = periodStart + 30d`,
`renewsAt = periodEnd − 3d`), counters reset, and the tier `totalRevenue`
is set to the absolute value read-plus-price. -/
def renewSubscription (sub : UserSubscription) (tier : SubscriptionTier)
    (dto : RenewSubscriptionDto) (usdcIssuer : String) (fetch : HorizonFetch) :
    RenewResult :=
  if sub.autoRenew = false then
    .rejected (.badRequest "Auto-renewal is disabled for this subscription")
  else if sub.status ≠ SubscriptionStatus.ACTIVE ∧
      sub.status ≠ SubscriptionStatus.SUSPENDED then
    .rejected (.badRequest "Cannot renew a subscription with this status")
  else
    let verification := verifySubscriptionPayment usdcIssuer fetch tier.price
      sub.subscriberWallet sub.providerWallet
    if verification.valid = false then
      let failed := { sub with
        paymentFailureCount := sub.paymentFailureCount + 1
        lastFailureReason := verification.error.map VerifyError.message
        paymentStatus := PaymentStatus.FAILED }
      let e := SvcError.badRequest
        ("Renewal payment failed: " ++
          ((verification.error.map VerifyError.message).getD ""))
      if MAX_PAYMENT_FAILURES ≤ failed.paymentFailureCount then
        .paymentFailed { failed with status := SubscriptionStatus.SUSPENDED } true e
      else
        .paymentFailed failed false e
    else
      let split := calculateRevenueSplit tier.price
      let newPeriodStart := sub.periodEnd
      let newPeriodEnd := newPeriodStart + BILLING_CYCLE_DAYS * MS_PER_DAY
      .renewed
        { sub with
          status := SubscriptionStatus.ACTIVE
          paymentStatus := PaymentStatus.COMPLETED
          stellarTxHash := some dto.stellarTxHash
          amountPaid := tier.price
          platformCommission := split.1
          providerEarnings := split.2
          periodStart := newPeriodStart
          periodEnd := newPeriodEnd
          renewsAt := newPeriodEnd - RENEWAL_NOTIFICATION_DAYS * MS_PER_DAY
          renewalCount := sub.renewalCount + 1
          paymentFailureCount := 0
          lastFailureReason := none }
        { tier with totalRevenue := tier.totalRevenue + tier.price }

-- ───────────────────────────────────────────────────────────────
--  scheduler : expiry sweep
-- ───────────────────────────────────────────────────────────────

/-- The expired-candidates query `getExpiredSubscriptions`: status ACTIVE or
SUSPENDED and `periodEnd ≤ now`. -/
def isExpiredCandidate (now : Int) (s : UserSubscription) : Bool :=
  decide ((s.status = SubscriptionStatus.ACTIVE ∨
    s.status = SubscriptionStatus.SUSPENDED) ∧ s.periodEnd ≤ now)

/-- Shallow embedding of `SubscriptionsService.getExpiredSubscriptions`. -/
def getExpiredSubscriptions (now : Int) (st : LedgerState) :
    List UserSubscription :=
  st.subs.filter (isExpiredCandidate now)

/-- The row update applied by the expiry sweep: status EXPIRED and
`autoRenew = false`. -/
def expireRow (r : UserSubscription) : UserSubscription :=
  { r with status := SubscriptionStatus.EXPIRED, autoRenew := false }

/-- The per-row body of the expiry sweep: set the row EXPIRED with
`autoRenew = false` and apply
`subscriber_count = GREATEST(subscriber_count − 1, 0)` on its tier. -/
def expireOne (st : LedgerState) (sub : UserSubscription) : LedgerState :=
  { st with
    subs := st.subs.map fun r => if r.id = sub.id then expireRow r else r
    tiers := st.tiers.map fun t =>
      if t.id = sub.tierId then
        { t with subscriberCount := t.subscriberCount - 1 }
      else t }

/-- Expire every row whose id appears in `ids` (the cumulative effect of the
sweep on the subscription table). -/
def markIds (ids : List Nat) (r : UserSubscription) : UserSubscription :=
  if r.id ∈ ids then expireRow r else r

/-- Shallow embedding of `SubscriptionRenewalJob.handleExpiredSubscriptions`:
fetch the expired candidates once, then expire each in turn. -/
def handleExpiredSubscriptions (now : Int) (st : LedgerState) : LedgerState :=
  (getExpiredSubscriptions now st).foldl expireOne st

-- ───────────────────────────────────────────────────────────────
--  concurrency model of the tier counter updates in subscribe
-- ───────────────────────────────────────────────────────────────

/-- An event of one in-flight `subscribe` call `i`: `readTier i` is the
`getTierOrFail` read at the start of the call, `commit i` is the later
transactional tier update (lines 398–402 of the service): a storage-level
relative add `subscriber_count = subscriber_count + 1` together with an
absolute write of `total_revenue` to `newTotal`, a value computed from the
earlier read. -/
inductive SubEvent
  | readTier (i : Nat)
  | commit (i : Nat)
deriving DecidableEq, Repr

/-- `SubEvent.commit` discriminator. -/
def SubEvent.isCommit : SubEvent → Bool
  | .commit _ => true
  | .readTier _ => false

/-- The tier aggregate counters shared by concurrent subscribes. -/
structure TierCounters where
  subscriberCount : Nat
  totalRevenue : Int
deriving DecidableEq, Repr

/-- Interleaving state: the shared tier counters plus the per-call snapshot
of `totalRevenue` taken by each read. -/
structure ConcState where
  tier : TierCounters
  snapshots : Nat → Option Int

/-- One interleaving step.  A commit without a prior read is given the
current value (it cannot occur in a well-formed schedule, where every call
reads before it commits). -/
def stepEvent (price : Int) (st : ConcState) : SubEvent → ConcState
  | .readTier i =>
      { st with snapshots := fun j =>
          if j = i then some st.tier.totalRevenue else st.snapshots j }
  | .commit i =>
      let snap := (st.snapshots i).getD st.tier.totalRevenue
      { st with tier :=
          { subscriberCount := st.tier.subscriberCount + 1
            totalRevenue := snap + price } }

/-- Run an interleaving of concurrent subscribes to one tier, starting from
counters `t0` with no snapshots taken. -/
def runSchedule (price : Int) (t0 : TierCounters) (evs : List SubEvent) :
    ConcState :=
  evs.foldl (stepEvent price) { tier := t0, snapshots := fun _ => none }

/-- The specified outcome of one failed renewal attempt: the persisted row
carries the incremented failure count, the recorded error and FAILED payment
status; the suspend call fires exactly at the threshold; the caller sees a
BadRequest; every other field of the row is unchanged. -/
def FailedRenewOutcome (sub : UserSubscription) (tier : SubscriptionTier)
    (dto : RenewSubscriptionDto) (iss : String) (fetch : HorizonFetch) : Prop :=
  ∃ sub' suspended e,
    renewSubscription sub tier dto iss fetch =
      RenewResult.paymentFailed sub' suspended e ∧
    sub'.paymentFailureCount = sub.paymentFailureCount + 1 ∧
    sub'.lastFailureReason =
      ((verifySubscriptionPayment iss fetch tier.price
        sub.subscriberWallet sub.providerWallet).error).map VerifyError.message ∧
    sub'.paymentStatus = PaymentStatus.FAILED ∧
    (suspended = true ↔ 3 ≤ sub.paymentFailureCount + 1) ∧
    sub'.status = (if 3 ≤ sub.paymentFailureCount + 1 then
      SubscriptionStatus.SUSPENDED else sub.status) ∧
    (∃ msg, e = SvcError.badRequest msg) ∧
    sub'.id = sub.id ∧ sub'.userId = sub.userId ∧ sub'.tierId = sub.tierId ∧
    sub'.providerId = sub.providerId ∧ sub'.amountPaid = sub.amountPaid ∧
    sub'.platformCommission = sub.platformCommission ∧
    sub'.providerEarnings = sub.providerEarnings ∧
    sub'.stellarTxHash = sub.stellarTxHash ∧
    sub'.periodStart = sub.periodStart ∧ sub'.periodEnd = sub.periodEnd ∧
    sub'.renewsAt = sub.renewsAt ∧
    sub'.subscriberWallet = sub.subscriberWallet ∧
    sub'.providerWallet = sub.providerWallet ∧
    sub'.autoRenew = sub.autoRenew ∧ sub'.renewalCount = sub.renewalCount ∧
    sub'.cancellationReason = sub.cancellationReason ∧
    sub'.cancelledAt = sub.cancelledAt

/-- Count of a provider's active FREE tiers. -/
def activeFreeCount (tiers : List SubscriptionTier) (pid : Nat) : Nat :=
  tiers.countP fun t => decide (t.providerId = pid ∧
    t.level = TierLevel.FREE ∧ t.active = true)

/-- The tier pricing invariants of the spec: at most one active FREE tier
per provider, FREE tiers are free, paid tiers cost something. -/
def tierInvariants (tiers : List SubscriptionTier) : Prop :=
  (∀ pid, activeFreeCount tiers pid ≤ 1) ∧
  (∀ t ∈ tiers, t.level = TierLevel.FREE → t.price = 0) ∧
  (∀ t ∈ tiers, t.level ≠ TierLevel.FREE → 0 < t.price)

-- ───────────────────────────────────────────────────────────────
--  concrete fixtures (used by witnesses and counterexamples)
-- ───────────────────────────────────────────────────────────────

/-- A concrete ACTIVE, auto-renewing subscription whose period ends at
2024-01-01T00:00:00Z (epoch ms 1704067200000). -/
def wSub : UserSubscription :=
  { id := 11
    userId := 3
    tierId := 1
    providerId := 7
    status := SubscriptionStatus.ACTIVE
    paymentStatus := PaymentStatus.COMPLETED
    amountPaid := 100000000
    platformCommission := 20000000
    providerEarnings := 80000000
    stellarTxHash := some "tx0"
    periodStart := 1701475200000
    periodEnd := 1704067200000
    renewsAt := 1703808000000
    subscriberWallet := "GSUB"
    providerWallet := "GPROV"
    autoRenew := true
    renewalCount := 0
    paymentFailureCount := 0
    lastFailureReason := none
    cancellationReason := none
    cancelledAt := none }

/-- A concrete paid tier priced 10.0000000 USDC. -/
def wTier : SubscriptionTier :=
  { id := 1
    providerId := 7
    name := "Premium"
    description := none
    level := TierLevel.PREMIUM
    price := 100000000
    signalLimit := some 5
    benefits := ["Daily market analysis"]
    active := true
    acceptingNewSubscribers := true
    subscriberCount := 1
    totalRevenue := 100000000 }

/-- A fully matching payment operation paying the full 10.0000000 USDC. -/
def wOpPaid : LedgerOp :=
  { type := "payment"
    asset_type := "credit_alphanum4"
    asset_code := "USDC"
    asset_issuer := some "GISS"
    fromAddr := "GSUB"
    toAddr := "GPROV"
    amount := 100000000 }

/-- The same operation paying only 5.0000000 USDC. -/
def wOpShort : LedgerOp :=
  { wOpPaid with amount := 50000000 }

/-- A Horizon fetch whose transaction holds one fully matching payment. -/
def wFetchPaid : HorizonFetch := .ok true [wOpPaid]

/-- A Horizon fetch that fails at the network layer. -/
def wFetchDown : HorizonFetch := .failure "connection reset"

/-- The renewal payload used by the witnesses. -/
def wRenewDto : RenewSubscriptionDto := { stellarTxHash := "tx1" }

/-- A concrete active FREE tier accepting subscribers. -/
def wFreeTier : SubscriptionTier :=
  { id := 2
    providerId := 7
    name := "Free"
    description := none
    level := TierLevel.FREE
    price := 0
    signalLimit := none
    benefits := []
    active := true
    acceptingNewSubscribers := true
    subscriberCount := 0
    totalRevenue := 0 }

/-- A concrete ledger state holding the FREE tier, no subscriptions and the
provider user. -/
def wState : LedgerState :=
  { tiers := [wFreeTier]
    subs := []
    users := [{ id := 7, walletAddress := some "GPROV" }] }

/-- The subscribe payload used by the witnesses. -/
def wSubscribeDto : SubscribeDto :=
  { tierId := 2
    subscriberWallet := "GSUB"
    stellarTxHash := "tx"
    autoRenew := none }

/-- A concrete ledger state holding the paid tier and one ACTIVE
subscription to it. -/
def wStateFull : LedgerState :=
  { tiers := [wTier]
    subs := [wSub]
    users := [{ id := 7, walletAddress := some "GPROV" }] }

/-- A creation payload for a paid PREMIUM tier. -/
def wPaidDto : CreateTierDto :=
  { name := "Premium"
    description := none
    level := TierLevel.PREMIUM
    price := 100000000
    signalLimit := none
    benefits := [] }

/-- An update payload that only changes the price (to 5.0000000). -/
def wPricePatch : UpdateTierDto :=
  { name := none
    description := none
    benefits := none
    price := some 50000000
    signalLimit := none
    active := none
    acceptingNewSubscribers := none }

-- ───────────────────────────────────────────────────────────────
--  helper lemmas
-- ───────────────────────────────────────────────────────────────

/-- Rounding correctness of the `toFixed(7)` step: `roundDiv10 x` is a
nearest integer to `x / 10` (ties resolved away from zero, `Big.RM = 1`). -/
theorem roundDiv10_nearest (x y : Int) :
    (10 * roundDiv10 x - x).natAbs ≤ (10 * y - x).natAbs := by
  unfold roundDiv10
  split <;> omega

/-- Characterization of the payment-failure path of `renewSubscription`:
with the guards passed and an invalid verification, the persisted row gets
the incremented failure count, the recorded error and FAILED payment status
(plus SUSPENDED status when the count reaches 3), the suspend call happens
exactly when the threshold is reached, and a BadRequest is thrown. -/
theorem renewSubscription_failure_eq
    (sub : UserSubscription) (tier : SubscriptionTier)
    (dto : RenewSubscriptionDto) (iss : String) (fetch : HorizonFetch)
    (hauto : sub.autoRenew = true)
    (hstatus : sub.status = SubscriptionStatus.ACTIVE ∨
      sub.status = SubscriptionStatus.SUSPENDED)
    (hinvalid : (verifySubscriptionPayment iss fetch tier.price
      sub.subscriberWallet sub.providerWallet).valid = false) :
    renewSubscription sub tier dto iss fetch =
      RenewResult.paymentFailed
        (if 3 ≤ sub.paymentFailureCount + 1 then
          { sub with
            paymentFailureCount := sub.paymentFailureCount + 1
            lastFailureReason :=
              ((verifySubscriptionPayment iss fetch tier.price
                sub.subscriberWallet sub.providerWallet).error).map
                VerifyError.message
            paymentStatus := PaymentStatus.FAILED
            status := SubscriptionStatus.SUSPENDED }
        else
          { sub with
            paymentFailureCount := sub.paymentFailureCount + 1
            lastFailureReason :=
              ((verifySubscriptionPayment iss fetch tier.price
                sub.subscriberWallet sub.providerWallet).error).map
                VerifyError.message
            paymentStatus := PaymentStatus.FAILED })
        (decide (3 ≤ sub.paymentFailureCount + 1))
        (SvcError.badRequest ("Renewal payment failed: " ++
          (((verifySubscriptionPayment iss fetch tier.price
            sub.subscriberWallet sub.providerWallet).error).map
            VerifyError.message).getD "")) := by
  rcases hstatus with h | h <;>
  · simp only [renewSubscription, hauto, hinvalid, h, MAX_PAYMENT_FAILURES]
    by_cases hc : 3 ≤ sub.paymentFailureCount + 1 <;> simp [hc]

/-- One failed renewal attempt satisfies `FailedRenewOutcome`. -/
theorem renewSubscription_failure_step
    (sub : UserSubscription) (tier : SubscriptionTier)
    (dto : RenewSubscriptionDto) (iss : String) (fetch : HorizonFetch)
    (hauto : sub.autoRenew = true)
    (hstatus : sub.status = SubscriptionStatus.ACTIVE ∨
      sub.status = SubscriptionStatus.SUSPENDED)
    (hinvalid : (verifySubscriptionPayment iss fetch tier.price
      sub.subscriberWallet sub.providerWallet).valid = false) :
    FailedRenewOutcome sub tier dto iss fetch := by
  unfold FailedRenewOutcome
  have heq := renewSubscription_failure_eq sub tier dto iss fetch hauto hstatus hinvalid
  by_cases hc : 3 ≤ sub.paymentFailureCount + 1
  · rw [heq, if_pos hc]
    refine ⟨_, _, _, rfl, ?_⟩
    simp [hc]
  · rw [heq, if_neg hc]
    refine ⟨_, _, _, rfl, ?_⟩
    simp [hc]

/-- When no operation matches the coordinate filter, the verifier loop falls
through to the no-matching-operation result. -/
theorem scanOps_eq_none (iss s r : String) (exp : Int) (ops : List LedgerOp)
    (h : ops.find? (matchesPayment iss s r) = none) :
    scanOps iss exp s r ops = emptyInvalid .noMatchingOp := by
  induction ops with
  | nil => rfl
  | cons op rest ih =>
      by_cases hm : matchesPayment iss s r op = true
      · rw [List.find?_cons_of_pos _ hm] at h
        cases h
      · rw [List.find?_cons_of_neg _ (by simpa using hm)] at h
        simpa [scanOps, hm] using ih h

/-- The first coordinate-matching operation decides the verifier outcome. -/
theorem scanOps_eq_some (iss s r : String) (exp : Int) (ops : List LedgerOp)
    (op : LedgerOp) (h : ops.find? (matchesPayment iss s r) = some op) :
    scanOps iss exp s r ops =
      if exp - TOLERANCE ≤ op.amount then validResult op
      else insufficientResult exp op := by
  induction ops with
  | nil => cases h
  | cons op0 rest ih =>
      by_cases hm : matchesPayment iss s r op0 = true
      · rw [List.find?_cons_of_pos _ hm] at h
        injection h with h
        subst h
        simp [scanOps, hm]
      · rw [List.find?_cons_of_neg _ (by simpa using hm)] at h
        simpa [scanOps, hm] using ih h

/-- A map that preserves tier ids commutes with the find-tier-by-id query. -/
theorem find?_tier_map (tiers : List SubscriptionTier) (tid : Nat)
    (g : SubscriptionTier → SubscriptionTier) (hg : ∀ t, (g t).id = t.id) :
    (tiers.map g).find? (fun t => decide (t.id = tid)) =
      (tiers.find? (fun t => decide (t.id = tid))).map g := by
  rw [List.find?_map]
  have hp : ((fun t : SubscriptionTier => decide (t.id = tid)) ∘ g) =
      (fun t => decide (t.id = tid)) := by
    funext t
    simp [Function.comp, hg]
  rw [hp]

-- ───────────────────────────────────────────────────────────────
--  claim theorems
-- ───────────────────────────────────────────────────────────────

/-- C1: for every gross amount (in 10⁻⁷ USDC units) the revenue split
returns a platformCommission that is gross × 0.20 rounded to 7 fractional
digits (a nearest multiple of 10⁻⁷, computed with exact integer — decimal —
arithmetic) and providerEarnings = gross − platformCommission, so
platformCommission + providerEarnings recovers the gross exactly; on gross
`10.0000000` the split is platformCommission `2.0000000` and
providerEarnings `8.0000000`. -/
theorem calculateRevenueSplit_spec (gross : Int) :
    (calculateRevenueSplit gross).1 + (calculateRevenueSplit gross).2 = gross ∧
    (calculateRevenueSplit gross).2 = gross - (calculateRevenueSplit gross).1 ∧
    (∀ y : Int,
      (10 * (calculateRevenueSplit gross).1 - gross * 2).natAbs ≤
        (10 * y - gross * 2).natAbs) ∧
    calculateRevenueSplit 100000000 = (20000000, 80000000) := by
  have h1 : calculateRevenueSplit gross =
      (roundDiv10 (gross * 2), gross - roundDiv10 (gross * 2)) := rfl
  refine ⟨?_, ?_, ?_, by decide⟩
  · simp only [h1]
    ring
  · simp only [h1]
  · intro y
    simp only [h1]
    exact roundDiv10_nearest (gross * 2) y

/-- C2: for every subscription with `autoRenew = true` and status ACTIVE or
SUSPENDED, a renewal whose payment verification succeeds anchors the new
billing window at the old `periodEnd` (new periodStart = old periodEnd, new
periodEnd = new periodStart + 30 days) independently of any wall clock (the
embedded `renewSubscription` takes no clock input, mirroring the source,
which reads no clock on this path), sets renewsAt = new periodEnd − 3 days,
increments renewalCount, resets paymentFailureCount to 0, clears
lastFailureReason and sets status ACTIVE; with old periodEnd
2024-01-01T00:00:00Z (1704067200000 ms) the new window is
2024-01-01T00:00:00Z → 2024-01-31T00:00:00Z (1706659200000 ms). -/
theorem renewSubscription_success_spec
    (sub : UserSubscription) (tier : SubscriptionTier)
    (dto : RenewSubscriptionDto) (iss : String) (fetch : HorizonFetch)
    (hauto : sub.autoRenew = true)
    (hstatus : sub.status = SubscriptionStatus.ACTIVE ∨
      sub.status = SubscriptionStatus.SUSPENDED)
    (hvalid : (verifySubscriptionPayment iss fetch tier.price
      sub.subscriberWallet sub.providerWallet).valid = true) :
    ∃ sub' tier',
      renewSubscription sub tier dto iss fetch = RenewResult.renewed sub' tier' ∧
      sub'.periodStart = sub.periodEnd ∧
      sub'.periodEnd = sub.periodEnd + 30 * 86400000 ∧
      sub'.renewsAt = sub'.periodEnd - 3 * 86400000 ∧
      sub'.renewalCount = sub.renewalCount + 1 ∧
      sub'.paymentFailureCount = 0 ∧
      sub'.lastFailureReason = none ∧
      sub'.status = SubscriptionStatus.ACTIVE ∧
      (sub.periodEnd = 1704067200000 →
        sub'.periodStart = 1704067200000 ∧ sub'.periodEnd = 1706659200000) := by
  rcases hstatus with h | h <;>
  · simp only [renewSubscription, hauto, hvalid, h]
    norm_num [BILLING_CYCLE_DAYS, MS_PER_DAY, RENEWAL_NOTIFICATION_DAYS]
    omega

/-- Closed witness for C2 at the concrete fixtures. -/
theorem renewSubscription_success_spec_witness :
    ∃ sub' tier',
      renewSubscription wSub wTier wRenewDto "GISS" wFetchPaid =
        RenewResult.renewed sub' tier' ∧
      sub'.periodStart = wSub.periodEnd ∧
      sub'.periodEnd = wSub.periodEnd + 30 * 86400000 ∧
      sub'.renewsAt = sub'.periodEnd - 3 * 86400000 ∧
      sub'.renewalCount = wSub.renewalCount + 1 ∧
      sub'.paymentFailureCount = 0 ∧
      sub'.lastFailureReason = none ∧
      sub'.status = SubscriptionStatus.ACTIVE ∧
      (wSub.periodEnd = 1704067200000 →
        sub'.periodStart = 1704067200000 ∧ sub'.periodEnd = 1706659200000) :=
  renewSubscription_success_spec wSub wTier wRenewDto "GISS" wFetchPaid
    rfl (Or.inl rfl) (by decide)

/-- C3: for every renewable subscription (autoRenew, status ACTIVE or
SUSPENDED), a renewal whose payment verification fails increments
paymentFailureCount by 1, records the verification error as
lastFailureReason, sets paymentStatus FAILED, persists exactly these fields
(every other field keeps its value) and surfaces a BadRequest to the
caller; the access-gate suspend operation is invoked exactly when the count
reaches 3, in which case the status becomes SUSPENDED; three consecutive
failed renewals starting from count 0 and status ACTIVE leave status
SUSPENDED and count exactly 3. -/
theorem renewSubscription_failure_spec
    (sub : UserSubscription) (tier : SubscriptionTier)
    (dto : RenewSubscriptionDto) (iss : String) (f1 f2 f3 : HorizonFetch)
    (hauto : sub.autoRenew = true)
    (hstatus : sub.status = SubscriptionStatus.ACTIVE ∨
      sub.status = SubscriptionStatus.SUSPENDED)
    (hinv1 : (verifySubscriptionPayment iss f1 tier.price
      sub.subscriberWallet sub.providerWallet).valid = false) :
    FailedRenewOutcome sub tier dto iss f1 ∧
    (sub.paymentFailureCount = 0 → sub.status = SubscriptionStatus.ACTIVE →
      (verifySubscriptionPayment iss f2 tier.price
        sub.subscriberWallet sub.providerWallet).valid = false →
      (verifySubscriptionPayment iss f3 tier.price
        sub.subscriberWallet sub.providerWallet).valid = false →
      ∃ s1 s2 s3 e1 e2 e3,
        renewSubscription sub tier dto iss f1 =
          RenewResult.paymentFailed s1 false e1 ∧
        renewSubscription s1 tier dto iss f2 =
          RenewResult.paymentFailed s2 false e2 ∧
        renewSubscription s2 tier dto iss f3 =
          RenewResult.paymentFailed s3 true e3 ∧
        s3.status = SubscriptionStatus.SUSPENDED ∧
        s3.paymentFailureCount = 3) := by
  refine ⟨renewSubscription_failure_step sub tier dto iss f1 hauto hstatus hinv1, ?_⟩
  intro h0 hA hinv2 hinv3
  obtain ⟨s1, susp1, e1, heq1, hcnt1, -, -, hsusp1, hstat1, -, -, -, -, -, -,
      -, -, -, -, -, -, hsw1, hpw1, har1, -, -, -⟩ :=
    renewSubscription_failure_step sub tier dto iss f1 hauto hstatus hinv1
  rw [h0] at hcnt1 hsusp1 hstat1
  norm_num at hstat1
  rw [hA] at hstat1
  have hsusp1f : susp1 = false := by
    rcases Bool.eq_false_or_eq_true susp1 with hb | hb
    · have h3 := hsusp1.mp hb
      omega
    · exact hb
  rw [hsusp1f] at heq1
  obtain ⟨s2, susp2, e2, heq2, hcnt2, -, -, hsusp2, hstat2, -, -, -, -, -, -,
      -, -, -, -, -, -, hsw2, hpw2, har2, -, -, -⟩ :=
    renewSubscription_failure_step s1 tier dto iss f2
      (by rw [har1, hauto]) (Or.inl hstat1)
      (by rw [hsw1, hpw1]; exact hinv2)
  rw [hcnt1] at hcnt2 hsusp2 hstat2
  norm_num at hstat2
  rw [hstat1] at hstat2
  have hsusp2f : susp2 = false := by
    rcases Bool.eq_false_or_eq_true susp2 with hb | hb
    · have h3 := hsusp2.mp hb
      omega
    · exact hb
  rw [hsusp2f] at heq2
  obtain ⟨s3, susp3, e3, heq3, hcnt3, -, -, hsusp3, hstat3, -, -, -, -, -, -,
      -, -, -, -, -, -, -, -, -, -, -, -⟩ :=
    renewSubscription_failure_step s2 tier dto iss f3
      (by rw [har2, har1, hauto]) (Or.inl hstat2)
      (by rw [hsw2, hsw1, hpw2, hpw1]; exact hinv3)
  rw [hcnt2] at hcnt3 hsusp3 hstat3
  norm_num at hstat3
  have hsusp3t : susp3 = true := hsusp3.mpr (by omega)
  rw [hsusp3t] at heq3
  exact ⟨s1, s2, s3, e1, e2, e3, heq1, heq2, heq3, hstat3, by omega⟩

/-- C4 counterexample: the claim reads "valid = true exactly when the cited
transaction CONTAINS a payment operation whose asset, issuer, sender,
receiver match and whose paid amount is ≥ expected − 1e-7"; but the code
stops at the FIRST coordinate-matching operation.  Here the first matching
operation underpays (5 USDC against 10) while a later operation in the same
transaction pays in full: a fully matching operation exists, yet the
verifier returns valid = false. -/
theorem verifySubscriptionPayment_contains_iff_counterexample :
    ¬ ((verifySubscriptionPayment "GISS" (HorizonFetch.ok true [wOpShort, wOpPaid])
        100000000 "GSUB" "GPROV").valid = true ↔
      ∃ op ∈ [wOpShort, wOpPaid],
        matchesPayment "GISS" "GSUB" "GPROV" op = true ∧
        (100000000 : Int) - TOLERANCE ≤ op.amount) := by
  decide

/-- C4 (amended): valid = true exactly when the transaction was found and
its FIRST payment operation matching the configured stablecoin (code and
pinned issuer) and the expected wallets (case-insensitively) pays at least
expected − 1e-7 — later matching operations are never reached once an
earlier matching one underpays; an underpaying first match yields
valid = false with an insufficient-payment error carrying both amounts; a
not-found transaction, a transaction with no matching operation, and a
failed network call each yield a valid = false result with a descriptive
error — the embedding is a total function returning result values, as the
source catches every raised condition and never throws to the caller. -/
theorem verifySubscriptionPayment_spec (iss : String) (fetch : HorizonFetch)
    (exp : Int) (s r : String) :
    ((verifySubscriptionPayment iss fetch exp s r).valid = true ↔
      (∃ ops op, fetch = HorizonFetch.ok true ops ∧
        ops.find? (matchesPayment iss s r) = some op ∧
        exp - TOLERANCE ≤ op.amount)) ∧
    (∀ ops op, fetch = HorizonFetch.ok true ops →
      ops.find? (matchesPayment iss s r) = some op →
      op.amount < exp - TOLERANCE →
      verifySubscriptionPayment iss fetch exp s r = insufficientResult exp op) ∧
    (∀ msg, fetch = HorizonFetch.failure msg →
      verifySubscriptionPayment iss fetch exp s r =
        emptyInvalid (VerifyError.networkError msg)) ∧
    (∀ ops, fetch = HorizonFetch.ok false ops →
      verifySubscriptionPayment iss fetch exp s r =
        emptyInvalid VerifyError.txNotFound) ∧
    (∀ ops, fetch = HorizonFetch.ok true ops →
      ops.find? (matchesPayment iss s r) = none →
      verifySubscriptionPayment iss fetch exp s r =
        emptyInvalid VerifyError.noMatchingOp) := by
  refine ⟨?_, ?_, ?_, ?_, ?_⟩
  · cases fetch with
    | failure msg =>
        simp [verifySubscriptionPayment, emptyInvalid]
    | ok found ops =>
        cases found with
        | false => simp [verifySubscriptionPayment, emptyInvalid]
        | true =>
            simp only [verifySubscriptionPayment]
            constructor
            · intro hv
              cases hf : ops.find? (matchesPayment iss s r) with
              | none =>
                  rw [scanOps_eq_none iss s r exp ops hf] at hv
                  simp [emptyInvalid] at hv
              | some op =>
                  rw [scanOps_eq_some iss s r exp ops op hf] at hv
                  by_cases hle : exp - TOLERANCE ≤ op.amount
                  · exact ⟨ops, op, rfl, hf, hle⟩
                  · rw [if_neg hle] at hv
                    simp [insufficientResult] at hv
            · rintro ⟨ops', op, heq, hf, hle⟩
              injection heq with h1 h2
              subst h2
              rw [scanOps_eq_some iss s r exp ops op hf, if_pos hle]
              rfl
  · rintro ops op rfl hf hlt
    simp only [verifySubscriptionPayment]
    rw [scanOps_eq_some iss s r exp ops op hf, if_neg (by omega)]
  · rintro msg rfl
    rfl
  · rintro ops rfl
    rfl
  · rintro ops rfl hf
    simp only [verifySubscriptionPayment]
    exact scanOps_eq_none iss s r exp ops hf

/-- C5: with the tier found, subscribe rejects with a validation error
(BadRequest) when the tier is inactive or not accepting new subscribers;
it rejects with Conflict when an ACTIVE subscription already exists for the
same (userId, tierId); and after any successful subscribe, calling
subscribe again with the same (userId, tierId) yields Conflict — the error
paths return before the transaction, so nothing is persisted on them (the
embedding returns only the error, leaving the state untouched). -/
theorem subscribe_guards_spec
    (userId : Nat) (dto : SubscribeDto) (iss : String) (fetch : HorizonFetch)
    (now : Int) (newId : Nat) (st : LedgerState) (tier : SubscriptionTier)
    (hfind : st.tiers.find? (fun t => decide (t.id = dto.tierId)) = some tier) :
    ((tier.active = false ∨ tier.acceptingNewSubscribers = false) →
      subscribe userId dto iss fetch now newId st =
        .error (.badRequest
          "This subscription tier is not currently accepting new subscribers")) ∧
    (hasActiveSubscription st userId tier.id = true →
      tier.active = true → tier.acceptingNewSubscribers = true →
      subscribe userId dto iss fetch now newId st =
        .error (.conflict "You already have an active subscription to this tier")) ∧
    (∀ sub1 st1 iss2 fetch2 now2 newId2,
      subscribe userId dto iss fetch now newId st = .ok (sub1, st1) →
      subscribe userId dto iss2 fetch2 now2 newId2 st1 =
        .error (.conflict "You already have an active subscription to this tier")) := by
  refine ⟨?_, ?_, ?_⟩
  · intro hg
    simp only [subscribe, hfind]
    rw [if_pos hg]
  · intro hdup ha hacc
    simp only [subscribe, hfind]
    rw [if_neg (by simp [ha, hacc]), if_pos hdup]
  · intro sub1 st1 iss2 fetch2 now2 newId2 hok
    simp only [subscribe, hfind] at hok
    by_cases hg1 : tier.active = false ∨ tier.acceptingNewSubscribers = false
    · rw [if_pos hg1] at hok
      simp at hok
    · rw [if_neg hg1] at hok
      by_cases hg2 : hasActiveSubscription st userId tier.id = true
      · rw [if_pos hg2] at hok
        simp at hok
      · rw [if_neg hg2] at hok
        cases hpay : paymentGate st tier dto iss fetch with
        | some e =>
            rw [hpay] at hok
            simp at hok
        | none =>
            rw [hpay] at hok
            simp only [Except.ok.injEq, Prod.mk.injEq] at hok
            obtain ⟨hsub1, hst1⟩ := hok
            subst hsub1
            subst hst1
            have hmap : ((st.tiers.map fun t =>
                if t.id = tier.id then
                  { t with
                    subscriberCount := t.subscriberCount + 1
                    totalRevenue := tier.totalRevenue + tier.price }
                else t).find? (fun t => decide (t.id = dto.tierId))) =
              some { tier with
                subscriberCount := tier.subscriberCount + 1
                totalRevenue := tier.totalRevenue + tier.price } := by
              rw [find?_tier_map _ _ _ (fun t => by
                by_cases h : t.id = tier.id <;> simp [h]), hfind]
              simp
            simp only [subscribe, hmap]
            rw [if_neg (by simpa using hg1), if_pos (by
              unfold hasActiveSubscription
              simp [List.any_cons])]

/-- Closed witness for C5: a successful subscribe followed by a second
subscribe with the same (userId, tierId) that ends in Conflict. -/
theorem subscribe_guards_spec_witness :
    ∃ sub1 st1,
      subscribe 3 wSubscribeDto "GISS" wFetchDown 1000 99 wState =
        .ok (sub1, st1) ∧
      subscribe 3 wSubscribeDto "GISS" wFetchDown 2000 100 st1 =
        .error (.conflict "You already have an active subscription to this tier") := by
  refine ⟨_, _, rfl, ?_⟩
  exact (subscribe_guards_spec 3 wSubscribeDto "GISS" wFetchDown 1000 99 wState
    wFreeTier (by decide)).2.2 _ _ "GISS" wFetchDown 2000 100 rfl

/-- Closed witness for the C4 amended theorem: an underpaying first match
produces the insufficient-payment result carrying both amounts. -/
theorem verifySubscriptionPayment_spec_witness :
    verifySubscriptionPayment "GISS" (HorizonFetch.ok true [wOpShort])
      100000000 "GSUB" "GPROV" = insufficientResult 100000000 wOpShort :=
  (verifySubscriptionPayment_spec "GISS" (HorizonFetch.ok true [wOpShort])
    100000000 "GSUB" "GPROV").2.1 [wOpShort] wOpShort rfl (by decide) (by decide)

/-- Closed witness for C3: three failed renewals of the concrete fixture
(against an unreachable ledger) end SUSPENDED with count exactly 3. -/
theorem renewSubscription_failure_spec_witness :
    ∃ s1 s2 s3 e1 e2 e3,
      renewSubscription wSub wTier wRenewDto "GISS" wFetchDown =
        RenewResult.paymentFailed s1 false e1 ∧
      renewSubscription s1 wTier wRenewDto "GISS" wFetchDown =
        RenewResult.paymentFailed s2 false e2 ∧
      renewSubscription s2 wTier wRenewDto "GISS" wFetchDown =
        RenewResult.paymentFailed s3 true e3 ∧
      s3.status = SubscriptionStatus.SUSPENDED ∧
      s3.paymentFailureCount = 3 :=
  (renewSubscription_failure_spec wSub wTier wRenewDto "GISS"
    wFetchDown wFetchDown wFetchDown rfl (Or.inl rfl) (by decide)).2
    rfl rfl (by decide) (by decide)

/-- C6 counterexample: the claim says every tier operation preserves the
pricing invariants, but `updateTier` only guards price changes when
`subscriberCount > 0`.  On a provider whose single tier is an active FREE
tier with zero subscribers — a state satisfying all invariants — an update
that sets price 5.0000000 succeeds and leaves a FREE tier with a non-zero
price, violating the "FREE tier price == 0" invariant. -/
theorem updateTier_invariants_counterexample :
    tierInvariants [wFreeTier] ∧
    updateTier 2 7 wPricePatch [wFreeTier] =
      .ok [{ wFreeTier with price := 50000000 }] ∧
    ¬ tierInvariants [{ wFreeTier with price := 50000000 }] := by
  refine ⟨⟨?_, by decide, by decide⟩, by rfl, ?_⟩
  · intro pid
    unfold activeFreeCount
    rw [List.countP_cons]
    simp only [List.countP_nil]
    split <;> simp
  · intro h
    have hp := h.2.1 { wFreeTier with price := 50000000 } (by simp) (by decide)
    exact absurd hp (by decide)

/-- C6 (amended): `createTier` preserves the tier pricing invariants (at
most one active FREE tier per provider, FREE price = 0, paid price > 0);
`updateTier` preserves them provided the patch does not set a price and
does not set `active = true` — with zero subscribers it otherwise accepts a
price change violating the FREE/paid pricing rules, and re-activating a
FREE tier can produce a second active FREE tier for the provider. -/
theorem tier_invariants_preservation :
    (∀ providerId dto newId tiers tier' tiers',
      tierInvariants tiers →
      createTier providerId dto newId tiers = .ok (tier', tiers') →
      tierInvariants tiers') ∧
    (∀ tierId providerId dto tiers tiers',
      tierInvariants tiers →
      dto.price = none →
      (dto.active = none ∨ dto.active = some false) →
      updateTier tierId providerId dto tiers = .ok tiers' →
      tierInvariants tiers') := by
  constructor
  · intro providerId dto newId tiers tier' tiers' hinv hok
    unfold createTier at hok
    by_cases h1 : dto.level = TierLevel.FREE ∧
        tiers.any (fun t => decide (t.providerId = providerId ∧
          t.level = TierLevel.FREE ∧ t.active = true)) = true
    · rw [if_pos h1] at hok
      simp at hok
    · rw [if_neg h1] at hok
      by_cases h2 : dto.level = TierLevel.FREE ∧ dto.price ≠ 0
      · rw [if_pos h2] at hok
        simp at hok
      · rw [if_neg h2] at hok
        by_cases h3 : dto.level ≠ TierLevel.FREE ∧ dto.price ≤ 0
        · rw [if_pos h3] at hok
          simp at hok
        · rw [if_neg h3] at hok
          simp only [Except.ok.injEq, Prod.mk.injEq] at hok
          obtain ⟨-, hts⟩ := hok
          subst hts
          refine ⟨?_, ?_, ?_⟩
          · intro pid
            have hbase := hinv.1 pid
            unfold activeFreeCount at hbase ⊢
            rw [List.countP_cons]
            split
            · next hcond =>
                simp only [decide_eq_true_eq] at hcond
                obtain ⟨hpid, hfree, -⟩ := hcond
                have hz : tiers.countP (fun t => decide (t.providerId = pid ∧
                    t.level = TierLevel.FREE ∧ t.active = true)) = 0 := by
                  rw [List.countP_eq_zero]
                  intro a ha
                  simp only [decide_eq_true_eq]
                  rintro ⟨hap, hal, haa⟩
                  exact h1 ⟨hfree, List.any_eq_true.mpr ⟨a, ha, by
                    simp [hap, hal, haa, hpid]⟩⟩
                omega
            · omega
          · intro t ht
            rcases List.mem_cons.mp ht with rfl | ht
            · intro hfree
              by_contra hne
              exact h2 ⟨hfree, hne⟩
            · exact hinv.2.1 t ht
          · intro t ht
            rcases List.mem_cons.mp ht with rfl | ht
            · intro hpaid
              by_contra hle
              have hle' : ¬((0 : Int) < dto.price) := hle
              exact h3 ⟨hpaid, by omega⟩
            · exact hinv.2.2 t ht
  · intro tierId providerId dto tiers tiers' hinv hpn hana hok
    cases hfind : tiers.find? (fun t => decide (t.id = tierId)) with
    | none =>
        simp only [updateTier, hfind] at hok
        simp at hok
    | some tier =>
        simp only [updateTier, hfind] at hok
        by_cases hown : tier.providerId ≠ providerId
        · rw [if_pos hown] at hok
          simp at hok
        · rw [if_neg hown] at hok
          rw [hpn] at hok
          rw [if_neg (by simp)] at hok
          simp only [Except.ok.injEq] at hok
          subst hok
          refine ⟨?_, ?_, ?_⟩
          · intro pid
            have hbase := hinv.1 pid
            unfold activeFreeCount at hbase ⊢
            rw [List.countP_map]
            refine le_trans (List.countP_mono_left ?_) hbase
            intro t ht hpt
            simp only [Function.comp, decide_eq_true_eq] at hpt ⊢
            by_cases hid : t.id = tierId
            · rw [if_pos hid] at hpt
              rcases hana with han | han <;>
                simpa [applyTierPatch, han] using hpt
            · rwa [if_neg hid] at hpt
          · intro t' ht'
            obtain ⟨t, ht, rfl⟩ := List.mem_map.mp ht'
            by_cases hid : t.id = tierId
            · rw [if_pos hid]
              simpa [applyTierPatch, hpn] using hinv.2.1 t ht
            · rw [if_neg hid]
              exact hinv.2.1 t ht
          · intro t' ht'
            obtain ⟨t, ht, rfl⟩ := List.mem_map.mp ht'
            by_cases hid : t.id = tierId
            · rw [if_pos hid]
              simpa [applyTierPatch, hpn] using hinv.2.2 t ht
            · rw [if_neg hid]
              exact hinv.2.2 t ht

/-- Closed witness for the C6 amended theorem: creating a paid tier on an
empty registry yields an invariant-satisfying registry. -/
theorem tier_invariants_preservation_witness :
    tierInvariants [] ∧
    ∃ tier' tiers',
      createTier 7 wPaidDto 1 [] = .ok (tier', tiers') ∧
      tierInvariants tiers' := by
  have hinv0 : tierInvariants [] := by
    refine ⟨?_, by simp, by simp⟩
    intro pid
    simp [activeFreeCount]
  refine ⟨hinv0, _, _, rfl, ?_⟩
  exact (tier_invariants_preservation).1 7 wPaidDto 1 [] _ _ hinv0 rfl

/-- C7: for a tier owned by the caller, `cancelTier` succeeds and in one
returned state (the embedding of the single `dataSource.transaction`) the
tier row has `active = false`, `acceptingNewSubscribers = false` and
`subscriberCount = 0`, and every subscription of that tier that was ACTIVE
before the call is CANCELLED with `autoRenew = false`, `cancelledAt = now`
and the cancellation reason recorded; no row is created or deleted. -/
theorem cancelTier_spec
    (tierId providerId : Nat) (now : Int) (st : LedgerState)
    (tier : SubscriptionTier)
    (hfind : st.tiers.find? (fun t => decide (t.id = tierId)) = some tier)
    (howner : tier.providerId = providerId) :
    ∃ st', cancelTier tierId providerId now st = .ok st' ∧
      (∀ t ∈ st'.tiers, t.id = tierId →
        t.active = false ∧ t.acceptingNewSubscribers = false ∧
        t.subscriberCount = 0) ∧
      (∀ s ∈ st.subs, s.tierId = tierId → s.status = SubscriptionStatus.ACTIVE →
        ∃ s' ∈ st'.subs, s'.id = s.id ∧
          s'.status = SubscriptionStatus.CANCELLED ∧
          s'.autoRenew = false ∧ s'.cancelledAt = some now ∧
          s'.cancellationReason =
            some "Provider cancelled the subscription tier") ∧
      st'.subs = st.subs.map (cancelTierRow now tierId) ∧
      st'.tiers.length = st.tiers.length ∧
      st'.subs.length = st.subs.length := by
  simp only [cancelTier, hfind]
  rw [if_neg (by simp [howner])]
  refine ⟨_, rfl, ?_, ?_, rfl, by simp, by simp⟩
  · intro t ht hid
    obtain ⟨t0, ht0, rfl⟩ := List.mem_map.mp ht
    by_cases h : t0.id = tierId
    · simp [h]
    · rw [if_neg h] at hid
      exact absurd hid h
  · intro s hs hst hact
    refine ⟨cancelTierRow now tierId s, List.mem_map_of_mem _ hs, ?_, ?_, ?_, ?_, ?_⟩ <;>
      simp [cancelTierRow, hst, hact]

/-- Closed witness for C7 at the concrete state with one ACTIVE
subscription. -/
theorem cancelTier_spec_witness :
    ∃ st', cancelTier 1 7 5000 wStateFull = .ok st' ∧
      (∀ t ∈ st'.tiers, t.id = 1 →
        t.active = false ∧ t.acceptingNewSubscribers = false ∧
        t.subscriberCount = 0) ∧
      (∀ s ∈ wStateFull.subs, s.tierId = 1 →
        s.status = SubscriptionStatus.ACTIVE →
        ∃ s' ∈ st'.subs, s'.id = s.id ∧
          s'.status = SubscriptionStatus.CANCELLED ∧
          s'.autoRenew = false ∧ s'.cancelledAt = some 5000 ∧
          s'.cancellationReason =
            some "Provider cancelled the subscription tier") ∧
      st'.subs = wStateFull.subs.map (cancelTierRow 5000 1) ∧
      st'.tiers.length = wStateFull.tiers.length ∧
      st'.subs.length = wStateFull.subs.length :=
  cancelTier_spec 1 7 5000 wStateFull wTier (by decide) rfl

/-- Expiring one row and then marking a set of ids equals marking the row's
id together with the set (the row update is idempotent and independent of
prior value). -/
theorem markIds_step (i : Nat) (ids : List Nat) (r : UserSubscription) :
    markIds ids (if r.id = i then expireRow r else r) = markIds (i :: ids) r := by
  by_cases h : r.id = i
  · rw [if_pos h]
    unfold markIds
    have hid : (expireRow r).id = r.id := rfl
    by_cases h2 : r.id ∈ ids
    · rw [if_pos (by rw [hid]; exact h2), if_pos (by simp [h, h2])]
      rfl
    · rw [if_neg (by rw [hid]; exact h2), if_pos (by simp [h])]
  · rw [if_neg h]
    unfold markIds
    by_cases h2 : r.id ∈ ids
    · rw [if_pos h2, if_pos (by simp [h2])]
    · rw [if_neg h2, if_neg (by simp [h, h2])]

/-- The subscription table after folding the sweep body over a row list is
the original table with every listed id expired. -/
theorem foldl_expireOne_subs (l : List UserSubscription) (st : LedgerState) :
    (l.foldl expireOne st).subs =
      st.subs.map (markIds (l.map UserSubscription.id)) := by
  induction l generalizing st with
  | nil =>
      have h : markIds [] = fun r => r := by
        funext r
        simp [markIds]
      simp [h]
  | cons a l ih =>
      rw [List.foldl_cons, ih]
      show ((st.subs.map fun r => if r.id = a.id then expireRow r else r).map
        (markIds (l.map UserSubscription.id))) = _
      rw [List.map_map, List.map_cons]
      apply List.map_congr_left
      intro r _
      exact markIds_step a.id (l.map UserSubscription.id) r

/-- After one sweep at `now`, the expired-candidates query at the same `now`
is empty: every previous candidate is now EXPIRED and EXPIRED rows are not
selected. -/
theorem getExpired_after_sweep (now : Int) (st : LedgerState) :
    getExpiredSubscriptions now (handleExpiredSubscriptions now st) = [] := by
  unfold handleExpiredSubscriptions
  unfold getExpiredSubscriptions
  rw [List.filter_eq_nil_iff]
  intro r hr
  rw [foldl_expireOne_subs] at hr
  obtain ⟨r0, hr0, rfl⟩ := List.mem_map.mp hr
  unfold markIds
  by_cases h : r0.id ∈ (st.subs.filter (isExpiredCandidate now)).map
      UserSubscription.id
  · rw [if_pos h]
    simp [isExpiredCandidate, expireRow]
  · rw [if_neg h]
    intro hcand
    apply h
    exact List.mem_map.mpr ⟨r0, List.mem_filter.mpr ⟨hr0, hcand⟩, rfl⟩

/-- C8: the daily expiry sweep is idempotent — running it a second time over
a state already swept at the same instant changes nothing at all (no
subscription field changes and no second decrement of any tier's
subscriberCount), because the expired-candidates query selects only ACTIVE
or SUSPENDED rows with `periodEnd ≤ now` and the sweep has turned all of
those EXPIRED. -/
theorem expirySweep_idempotent (now : Int) (st : LedgerState) :
    getExpiredSubscriptions now (handleExpiredSubscriptions now st) = [] ∧
    handleExpiredSubscriptions now (handleExpiredSubscriptions now st) =
      handleExpiredSubscriptions now st := by
  refine ⟨getExpired_after_sweep now st, ?_⟩
  calc handleExpiredSubscriptions now (handleExpiredSubscriptions now st)
      = (getExpiredSubscriptions now (handleExpiredSubscriptions now st)).foldl
          expireOne (handleExpiredSubscriptions now st) := rfl
    _ = ([] : List UserSubscription).foldl expireOne
          (handleExpiredSubscriptions now st) := by
        rw [getExpired_after_sweep now st]
    _ = handleExpiredSubscriptions now st := rfl

/-- Folding interleaving events: the subscriber count grows by exactly the
number of commit events, whatever the schedule, because the commit applies
a storage-level relative add. -/
theorem foldl_stepEvent_count (price : Int) (evs : List SubEvent)
    (cst : ConcState) :
    (evs.foldl (stepEvent price) cst).tier.subscriberCount =
      cst.tier.subscriberCount + evs.countP SubEvent.isCommit := by
  induction evs generalizing cst with
  | nil => simp
  | cons e evs ih =>
      rw [List.foldl_cons, ih, List.countP_cons]
      cases e with
      | readTier i =>
          simp [stepEvent, SubEvent.isCommit]
      | commit i =>
          simp only [stepEvent, SubEvent.isCommit]
          simp
          omega

/-- C9 counterexample: the claim says every counter mutation (subscriberCount
AND totalRevenue) is an atomic storage-level add, so 50 concurrent
subscribes leave totalRevenue at 50 × price.  But the source computes the
new totalRevenue from the tier row read at the start of the call and writes
it as an absolute value.  In the interleaving where two subscribers both
read the tier (totalRevenue 0) before either commits, the final
totalRevenue is one price (10 USDC), not two — one update is lost — while
subscriberCount, a true relative add, is correctly 2. -/
theorem concurrent_totalRevenue_counterexample :
    (runSchedule 100000000 { subscriberCount := 0, totalRevenue := 0 }
      [SubEvent.readTier 0, SubEvent.readTier 1,
       SubEvent.commit 0, SubEvent.commit 1]).tier.subscriberCount = 2 ∧
    (runSchedule 100000000 { subscriberCount := 0, totalRevenue := 0 }
      [SubEvent.readTier 0, SubEvent.readTier 1,
       SubEvent.commit 0, SubEvent.commit 1]).tier.totalRevenue = 100000000 ∧
    (runSchedule 100000000 { subscriberCount := 0, totalRevenue := 0 }
      [SubEvent.readTier 0, SubEvent.readTier 1,
       SubEvent.commit 0, SubEvent.commit 1]).tier.totalRevenue ≠
      2 * 100000000 := by
  refine ⟨by decide, by decide, by decide⟩

/-- C9 (amended): the subscriberCount update is an atomic storage-level add
(`subscriber_count = subscriber_count + 1`), so no increment is ever lost:
under every interleaving of concurrent subscribes to one tier the final
subscriberCount is the initial count plus the number of commits — in
particular 50 concurrent subscribes add exactly 50.  The claim does not
hold for totalRevenue, which the source computes read-then-write (see the
counterexample): concurrent subscribes can lose revenue updates. -/
theorem concurrent_subscribe_counters (price : Int) (t0 : TierCounters)
    (evs : List SubEvent) :
    (runSchedule price t0 evs).tier.subscriberCount =
      t0.subscriberCount + evs.countP SubEvent.isCommit ∧
    (evs.countP SubEvent.isCommit = 50 →
      (runSchedule price t0 evs).tier.subscriberCount =
        t0.subscriberCount + 50) := by
  have h := foldl_stepEvent_count price evs { tier := t0, snapshots := fun _ => none }
  exact ⟨h, fun h50 => by rw [runSchedule, h, h50]⟩

/-- Closed witness for the C9 amended theorem: 50 reads followed by 50
commits (the fully concurrent interleaving) leave subscriberCount exactly
50. -/
theorem concurrent_subscribe_counters_witness :
    (((List.range 50).map SubEvent.readTier ++
      (List.range 50).map SubEvent.commit).countP SubEvent.isCommit = 50) ∧
    (runSchedule 100000000 { subscriberCount := 0, totalRevenue := 0 }
      ((List.range 50).map SubEvent.readTier ++
       (List.range 50).map SubEvent.commit)).tier.subscriberCount = 0 + 50 :=
  ⟨by decide,
   (concurrent_subscribe_counters 100000000
     { subscriberCount := 0, totalRevenue := 0 }
     ((List.range 50).map SubEvent.readTier ++
      (List.range 50).map SubEvent.commit)).2 (by decide)⟩

/-- C10: for a subscription owned by the caller with status ACTIVE or
SUSPENDED, cancelSubscription always sets `autoRenew = false`, records the
cancellation reason and `cancelledAt = now`, and changes nothing else on
the row; with `immediate = false` the status keeps its prior value (a
SUSPENDED subscription stays SUSPENDED) and the tier table is untouched;
only with `immediate = true` does the status become CANCELLED and the
tier's subscriberCount get decremented (floored at 0 by the `GREATEST`
update, `Nat` subtraction here); totalRevenue is unchanged in both modes. -/
theorem cancelSubscription_spec
    (subscriptionId userId : Nat) (dto : CancelSubscriptionDto) (now : Int)
    (st : LedgerState) (sub : UserSubscription)
    (hfind : st.subs.find? (fun s => decide (s.id = subscriptionId)) = some sub)
    (howner : sub.userId = userId)
    (hstatus : sub.status = SubscriptionStatus.ACTIVE ∨
      sub.status = SubscriptionStatus.SUSPENDED) :
    ∃ sub' st',
      cancelSubscription subscriptionId userId dto now st = .ok (sub', st') ∧
      sub'.autoRenew = false ∧
      sub'.cancellationReason = dto.reason ∧
      sub'.cancelledAt = some now ∧
      sub'.id = sub.id ∧ sub'.userId = sub.userId ∧ sub'.tierId = sub.tierId ∧
      sub'.providerId = sub.providerId ∧
      sub'.paymentStatus = sub.paymentStatus ∧
      sub'.amountPaid = sub.amountPaid ∧
      sub'.platformCommission = sub.platformCommission ∧
      sub'.providerEarnings = sub.providerEarnings ∧
      sub'.stellarTxHash = sub.stellarTxHash ∧
      sub'.periodStart = sub.periodStart ∧ sub'.periodEnd = sub.periodEnd ∧
      sub'.renewsAt = sub.renewsAt ∧
      sub'.subscriberWallet = sub.subscriberWallet ∧
      sub'.providerWallet = sub.providerWallet ∧
      sub'.renewalCount = sub.renewalCount ∧
      sub'.paymentFailureCount = sub.paymentFailureCount ∧
      sub'.lastFailureReason = sub.lastFailureReason ∧
      (dto.immediate = false → sub'.status = sub.status ∧ st'.tiers = st.tiers) ∧
      (dto.immediate = true →
        sub'.status = SubscriptionStatus.CANCELLED ∧
        st'.tiers = st.tiers.map fun t =>
          if t.id = sub.tierId then
            { t with subscriberCount := t.subscriberCount - 1 }
          else t) ∧
      st'.tiers.map SubscriptionTier.totalRevenue =
        st.tiers.map SubscriptionTier.totalRevenue := by
  have hng : ¬(sub.status = SubscriptionStatus.CANCELLED ∨
      sub.status = SubscriptionStatus.EXPIRED) := by
    rcases hstatus with h | h <;> simp [h]
  cases him : dto.immediate with
  | false =>
      simp only [cancelSubscription, hfind, him]
      rw [if_neg (by simp [howner]), if_neg hng]
      simp only [Bool.false_eq_true, if_false]
      refine ⟨_, _, rfl, ?_⟩
      simp [him]
  | true =>
      simp only [cancelSubscription, hfind, him]
      rw [if_neg (by simp [howner]), if_neg hng]
      simp only [if_true]
      refine ⟨_, _, rfl, ?_⟩
      refine ⟨rfl, rfl, rfl, rfl, rfl, rfl, rfl, rfl, rfl, rfl, rfl, rfl, rfl,
        rfl, rfl, rfl, rfl, rfl, rfl, rfl, by simp, fun _ => ⟨rfl, rfl⟩, ?_⟩
      rw [List.map_map]
      apply List.map_congr_left
      intro t _
      by_cases h : t.id = sub.tierId <;> simp [h]

/-- Closed witness for C10 at the concrete state: a non-immediate cancel of
the ACTIVE fixture subscription. -/
theorem cancelSubscription_spec_witness :
    ∃ sub' st',
      cancelSubscription 11 3 { reason := some "done", immediate := false }
        7000 wStateFull = .ok (sub', st') ∧
      sub'.autoRenew = false ∧
      sub'.cancellationReason = some "done" ∧
      sub'.cancelledAt = some 7000 ∧
      sub'.id = wSub.id ∧ sub'.userId = wSub.userId ∧
      sub'.tierId = wSub.tierId ∧
      sub'.providerId = wSub.providerId ∧
      sub'.paymentStatus = wSub.paymentStatus ∧
      sub'.amountPaid = wSub.amountPaid ∧
      sub'.platformCommission = wSub.platformCommission ∧
      sub'.providerEarnings = wSub.providerEarnings ∧
      sub'.stellarTxHash = wSub.stellarTxHash ∧
      sub'.periodStart = wSub.periodStart ∧ sub'.periodEnd = wSub.periodEnd ∧
      sub'.renewsAt = wSub.renewsAt ∧
      sub'.subscriberWallet = wSub.subscriberWallet ∧
      sub'.providerWallet = wSub.providerWallet ∧
      sub'.renewalCount = wSub.renewalCount ∧
      sub'.paymentFailureCount = wSub.paymentFailureCount ∧
      sub'.lastFailureReason = wSub.lastFailureReason ∧
      (false = false → sub'.status = wSub.status ∧ st'.tiers = wStateFull.tiers) ∧
      (false = true →
        sub'.status = SubscriptionStatus.CANCELLED ∧
        st'.tiers = wStateFull.tiers.map fun t =>
          if t.id = wSub.tierId then
            { t with subscriberCount := t.subscriberCount - 1 }
          else t) ∧
      st'.tiers.map SubscriptionTier.totalRevenue =
        wStateFull.tiers.map SubscriptionTier.totalRevenue :=
  cancelSubscription_spec 11 3 { reason := some "done", immediate := false }
    7000 wStateFull wSub (by decide) rfl (Or.inl rfl)

end StellarSwipe
